import Mathlib

/-!
Verification of the gojsonschema format-checker registry and message
templating (format_checkers.go, locales.go), as a shallow embedding.

Go values decoded from JSON are modelled by `Value`; the registry
(`FormatCheckerChain`) is modelled as a partial map from names to checker
predicates; Go standard-library parsing primitives used by the checkers
(`time.Parse` on the relevant layouts, `net/url.Parse`, `net.ParseIP`,
and the precompiled regular expressions) are modelled as executable Lean
functions translated from the Go standard library's behaviour.
-/

set_option maxRecDepth 4000

/-- A dynamically typed value as decoded from JSON: the possible shapes of
the `interface\x7b\x7d` argument that every `IsFormat` receives. -/
inductive Value where
  | vNull : Value
  | vBool (b : Bool) : Value
  | vNum (n : Int) : Value
  | vStr (s : String) : Value
  | vArr (l : List Value) : Value
  | vObj (l : List (String × Value)) : Value

open Value

/-- The Go type assertion `input.(string)`: yields the string when the
dynamic value is string-typed, and nothing otherwise. -/
def asString : Value → Option String
  | vStr s => some s
  | _ => none

/-- Whether a decoded value is string-typed. -/
def isStringValue (v : Value) : Bool := (asString v).isSome

/-- A format checker: the single operation of the `FormatChecker`
interface, a predicate on a dynamically typed value. -/
def Checker : Type := Value → Bool

/-- The registry state of a `FormatCheckerChain`: the `formatters`
map from format names to checkers, modelled as a partial function
(Go map semantics: at most one binding per name). -/
def Chain : Type := String → Option Checker

/-- Modelled from the spec: `convertToNewChecker` (declared outside the
given sources) wraps a `FormatChecker` into a `FormatCheckerWithError`;
per the spec the chain "delegates to it and returns its verdict
unmodified", so the wrapper preserves the predicate. -/
def convertToNewChecker (f : Checker) : Checker := f

/-- `FormatCheckerChain.Add`: inserts or overwrites the binding for
`name` with the converted checker (format_checkers.go lines 152-159). -/
def FormatCheckerChain_Add (c : Chain) (name : String) (f : Checker) : Chain :=
  fun m => if m = name then some (convertToNewChecker f) else c m

/-- `FormatCheckerChain.Remove`: deletes the binding for `name` if it
exists (format_checkers.go lines 162-168). -/
def FormatCheckerChain_Remove (c : Chain) (name : String) : Chain :=
  fun m => if m = name then none else c m

/-- `FormatCheckerChain.Has`: membership query for `name`
(format_checkers.go lines 171-177). -/
def FormatCheckerChain_Has (c : Chain) (name : String) : Bool :=
  (c name).isSome

/-- `FormatCheckerChain.IsFormat`: looks up `name`; an unrecognized
format always passes; otherwise delegates to the found checker
(format_checkers.go lines 181-192). -/
def FormatCheckerChain_IsFormat (c : Chain) (name : String) (input : Value) : Bool :=
  match c name with
  | none => true
  | some f => f input

/-- `FormatCheckerChain.Has` as a state transformer: the method reads
the `formatters` map under a shared lock and writes nothing, so it
returns its result together with the unchanged registry state. -/
def FormatCheckerChain_HasOp (c : Chain) (name : String) : Bool × Chain :=
  (FormatCheckerChain_Has c name, c)

/-- `FormatCheckerChain.IsFormat` as a state transformer: the method
reads the `formatters` map and writes nothing. -/
def FormatCheckerChain_IsFormatOp (c : Chain) (name : String) (input : Value) :
    Bool × Chain :=
  (FormatCheckerChain_IsFormat c name input, c)

/-! ### Message templating (locales.go)

`fmt.Sprintf` is modelled for the verbs appearing in the locale
templates (`%s`, `%d`, and the escape `%%`), including Go's behaviour on
argument-count mismatches: a verb with no remaining argument renders as
`%!s(MISSING)` (resp. `%!d(MISSING)`), left-over arguments are appended
as `%!(EXTRA ...)`, and a wrongly typed argument renders as
`%!d(string=...)` / `%!s(int=...)`; formatting never fails. -/

/-- A positional argument passed to a message maker: the locale
templates are invoked with strings and integers. -/
inductive FmtArg where
  | aStr (s : String) : FmtArg
  | aInt (n : Int) : FmtArg
deriving DecidableEq

open FmtArg

/-- Rendering of one argument under verb `s` or `d` (Go `fmt` semantics:
a mismatched argument type yields a `%!verb(type=value)` note). -/
def renderVerb (v : Char) (a : FmtArg) : List Char :=
  match v, a with
  | 's', aStr s => s.data
  | 's', aInt n => "%!s(int=".data ++ (toString n).data ++ ")".data
  | 'd', aInt n => (toString n).data
  | 'd', aStr s => "%!d(string=".data ++ s.data ++ ")".data
  | _, _ => []

/-- Go `fmt`'s rendering of a verb with no remaining argument. -/
def missingVerb (v : Char) : List Char :=
  "%!".data ++ [v] ++ "(MISSING)".data

/-- Go `fmt`'s `%v`-style rendering of one left-over argument inside the
`%!(EXTRA ...)` note. -/
def renderExtraArg : FmtArg → List Char
  | aStr s => "string=".data ++ s.data
  | aInt n => "int=".data ++ (toString n).data

/-- The `%!(EXTRA type=value, ...)` note Go `fmt` appends when arguments
remain after the format string is exhausted. -/
def renderExtra (args : List FmtArg) : List Char :=
  "%!(EXTRA ".data ++
    (match args with
     | [] => []
     | a :: t => t.foldl (fun acc b => acc ++ ", ".data ++ renderExtraArg b)
         (renderExtraArg a)) ++ ")".data

/-- Model of `fmt.Sprintf` on a character list, for the verbs used by
locales.go; total, as Go formatting never raises. -/
def sprintfAux : List Char → List FmtArg → List Char
  | [], args => if args.isEmpty then [] else renderExtra args
  | ['%'], args =>
      "%!(NOVERB)".data ++ (if args.isEmpty then [] else renderExtra args)
  | '%' :: '%' :: rest, args => '%' :: sprintfAux rest args
  | '%' :: v :: rest, args =>
      if v = 's' || v = 'd' then
        match args with
        | a :: t => renderVerb v a ++ sprintfAux rest t
        | [] => missingVerb v ++ sprintfAux rest []
      else "%!".data ++ [v] ++ "(NOVERB)".data ++ sprintfAux rest args
  | c :: rest, args => c :: sprintfAux rest args

/-- Model of `fmt.Sprintf(format, args...)`. -/
def fmtSprintf (format : String) (args : List FmtArg) : String :=
  ⟨sprintfAux format.data args⟩

/-- `Message` (locales.go lines 91-94): an error code together with the
rendered English description. -/
structure Message where
  Code : String
  Description : String
deriving DecidableEq

/-- `Message.Error` (locales.go lines 97-99): an error holding the
formatted description. -/
def Message_Error (m : Message) : String := m.Description

/-- `messageMaker` (locales.go line 102): a closure from positional
arguments to a `Message`. -/
def messageMaker : Type := List FmtArg → Message

/-- `newMessageMaker` (locales.go lines 104-112): binds an error code
and a format string; invocation formats the arguments into the
description and attaches the code. -/
def newMessageMaker (code format : String) : messageMaker :=
  fun args => ⟨code, fmtSprintf format args⟩

/-! Error-code constants of locales.go (lines 49-89). -/

def ARRAY_MIN_ITEMS : String := "ARRAY_MIN_ITEMS"
def ARRAY_MAX_ITEMS : String := "ARRAY_MAX_ITEMS"
def ARRAY_MIN_PROPERTIES : String := "ARRAY_MIN_PROPERTIES"
def ARRAY_MAX_PROPERTIES : String := "ARRAY_MAX_PROPERTIES"
def ARRAY_NO_ADDITIONAL_ITEM : String := "ARRAY_NO_ADDITIONAL_ITEM"
def ADDITIONAL_PROPERTY_NOT_ALLOWED : String := "ADDITIONAL_PROPERTY_NOT_ALLOWED"
def DOES_NOT_MATCH_PATTERN : String := "DOES_NOT_MATCH_PATTERN"
def HAS_DEPENDENCY_ON : String := "HAS_DEPENDENCY_ON"
def MULTIPLE_OF : String := "MULTIPLE_OF"
def GET_HTTP_BAD_STATUS : String := "GET_HTTP_BAD_STATUS"
def INVALID_PATTERN_PROPERTY : String := "INVALID_PATTERN_PROPERTY"
def INTERNAL : String := "INTERNAL"
def INVALID_REGEX_PATTERN : String := "INVALID_REGEX_PATTERN"
def MUST_MATCH_ONE_ENUM_VALUES : String := "MUST_MATCH_ONE_ENUM_VALUES"
def NUMBER_MUST_BE_LOWER_OR_EQUAL : String := "NUMBER_MUST_BE_LOWER_OR_EQUAL"
def NUMBER_MUST_BE_LOWER : String := "NUMBER_MUST_BE_LOWER"
def NUMBER_MUST_BE_GREATER_OR_EQUAL : String := "NUMBER_MUST_BE_GREATER_OR_EQUAL"
def NUMBER_MUST_BE_GREATER : String := "NUMBER_MUST_BE_GREATER"
def NUMBER_MUST_VALIDATE_ALLOF : String := "NUMBER_MUST_VALIDATE_ALLOF"
def NUMBER_MUST_VALIDATE_ONEOF : String := "NUMBER_MUST_VALIDATE_ONEOF"
def NUMBER_MUST_VALIDATE_ANYOF : String := "NUMBER_MUST_VALIDATE_ANYOF"
def NUMBER_MUST_VALIDATE_NOT : String := "NUMBER_MUST_VALIDATE_NOT"
def REFERENCE_X_MUST_BE_CANONICAL : String := "REFERENCE_X_MUST_BE_CANONICAL"
def STRING_LENGTH_MUST_BE_GREATER_OR_EQUAL : String := "STRING_LENGTH_MUST_BE_GREATER_OR_EQUAL"
def STRING_LENGTH_MUST_BE_LOWER_OR_EQUAL : String := "STRING_LENGTH_MUST_BE_LOWER_OR_EQUAL"
def MUST_BE_OF_TYPE_X : String := "MUST_BE_OF_TYPE_X"
def NEW_SCHEMA_DOCUMENT_INVALID_ARGUMENT : String := "NEW_SCHEMA_DOCUMENT_INVALID_ARGUMENT"
def X_IS_NOT_A_VALID_TYPE : String := "X_IS_NOT_A_VALID_TYPE"
def X_TYPE_IS_DUPLICATED : String := "X_TYPE_IS_DUPLICATED"
def X_MUST_BE_OF_TYPE_Y : String := "X_MUST_BE_OF_TYPE_Y"
def X_MUST_BE_A_Y : String := "X_MUST_BE_A_Y"
def X_MUST_BE_AN_Y : String := "X_MUST_BE_AN_Y"
def X_IS_MISSING_AND_REQUIRED : String := "X_IS_MISSING_AND_REQUIRED"
def X_MUST_BE_VALID_REGEX : String := "X_MUST_BE_VALID_REGEX"
def X_MUST_BE_GREATER_OR_TO_0 : String := "X_MUST_BE_GREATER_OR_TO_0"
def X_CANNOT_BE_GREATER_THAN_Y : String := "X_CANNOT_BE_GREATER_THAN_Y"
def X_MUST_BE_STRICTLY_GREATER_THAN_0 : String := "X_MUST_BE_STRICTLY_GREATER_THAN_0"
def X_CANNOT_BE_USED_WITHOUT_Y : String := "X_CANNOT_BE_USED_WITHOUT_Y"
def X_ITEMS_MUST_BE_UNIQUE : String := "X_ITEMS_MUST_BE_UNIQUE"
def X_ITEMS_MUST_BE_TYPE_Y : String := "X_ITEMS_MUST_BE_TYPE_Y"

/-! The message-maker bindings of locales.go (lines 115-176). -/

def ERROR_MESSAGE_X_IS_NOT_A_VALID_TYPE : messageMaker :=
  newMessageMaker X_IS_NOT_A_VALID_TYPE "%s is not a valid type"
def ERROR_MESSAGE_X_TYPE_IS_DUPLICATED : messageMaker :=
  newMessageMaker X_TYPE_IS_DUPLICATED "%s type is duplicated"
def ERROR_MESSAGE_X_MUST_BE_OF_TYPE_Y : messageMaker :=
  newMessageMaker X_MUST_BE_OF_TYPE_Y "%s must be of type %s"
def ERROR_MESSAGE_X_MUST_BE_A_Y : messageMaker :=
  newMessageMaker X_MUST_BE_A_Y "%s must be of a %s"
def ERROR_MESSAGE_X_MUST_BE_AN_Y : messageMaker :=
  newMessageMaker X_MUST_BE_AN_Y "%s must be of an %s"
def ERROR_MESSAGE_X_IS_MISSING_AND_REQUIRED : messageMaker :=
  newMessageMaker X_IS_MISSING_AND_REQUIRED "%s is missing and required"
def ERROR_MESSAGE_MUST_BE_OF_TYPE_X : messageMaker :=
  newMessageMaker MUST_BE_OF_TYPE_X "must be of type %s"
def ERROR_MESSAGE_X_ITEMS_MUST_BE_UNIQUE : messageMaker :=
  newMessageMaker X_ITEMS_MUST_BE_UNIQUE "%s items must be unique"
def ERROR_MESSAGE_X_ITEMS_MUST_BE_TYPE_Y : messageMaker :=
  newMessageMaker X_ITEMS_MUST_BE_TYPE_Y "%s items must be %s"
def ERROR_MESSAGE_DOES_NOT_MATCH_PATTERN : messageMaker :=
  newMessageMaker DOES_NOT_MATCH_PATTERN "does not match pattern '%s'"
def ERROR_MESSAGE_MUST_MATCH_ONE_ENUM_VALUES : messageMaker :=
  newMessageMaker MUST_MATCH_ONE_ENUM_VALUES "must match one of the enum values [%s]"
def ERROR_MESSAGE_STRING_LENGTH_MUST_BE_GREATER_OR_EQUAL : messageMaker :=
  newMessageMaker STRING_LENGTH_MUST_BE_GREATER_OR_EQUAL "string length must be greater or equal to %d"
def ERROR_MESSAGE_STRING_LENGTH_MUST_BE_LOWER_OR_EQUAL : messageMaker :=
  newMessageMaker STRING_LENGTH_MUST_BE_LOWER_OR_EQUAL "string length must be lower or equal to %d"
def ERROR_MESSAGE_NUMBER_MUST_BE_LOWER_OR_EQUAL : messageMaker :=
  newMessageMaker NUMBER_MUST_BE_LOWER_OR_EQUAL "must be lower than or equal to %s"
def ERROR_MESSAGE_NUMBER_MUST_BE_LOWER : messageMaker :=
  newMessageMaker NUMBER_MUST_BE_LOWER "must be lower than %s"
def ERROR_MESSAGE_NUMBER_MUST_BE_GREATER_OR_EQUAL : messageMaker :=
  newMessageMaker NUMBER_MUST_BE_GREATER_OR_EQUAL "must be greater than or equal to %s"
def ERROR_MESSAGE_NUMBER_MUST_BE_GREATER : messageMaker :=
  newMessageMaker NUMBER_MUST_BE_GREATER "must be greater than %s"
def ERROR_MESSAGE_NUMBER_MUST_VALIDATE_ALLOF : messageMaker :=
  newMessageMaker NUMBER_MUST_VALIDATE_ALLOF "must validate all the schemas (allOf)"
def ERROR_MESSAGE_NUMBER_MUST_VALIDATE_ONEOF : messageMaker :=
  newMessageMaker NUMBER_MUST_VALIDATE_ONEOF "must validate one and only one schema (oneOf)"
def ERROR_MESSAGE_NUMBER_MUST_VALIDATE_ANYOF : messageMaker :=
  newMessageMaker NUMBER_MUST_VALIDATE_ANYOF "must validate at least one schema (anyOf)"
def ERROR_MESSAGE_NUMBER_MUST_VALIDATE_NOT : messageMaker :=
  newMessageMaker NUMBER_MUST_VALIDATE_NOT "must not validate the schema (not)"
def ERROR_MESSAGE_ARRAY_MIN_ITEMS : messageMaker :=
  newMessageMaker ARRAY_MIN_ITEMS "array must have at least %d items"
def ERROR_MESSAGE_ARRAY_MAX_ITEMS : messageMaker :=
  newMessageMaker ARRAY_MAX_ITEMS "array must have at the most %d items"
def ERROR_MESSAGE_ARRAY_MIN_PROPERTIES : messageMaker :=
  newMessageMaker ARRAY_MIN_PROPERTIES "must have at least %d properties"
def ERROR_MESSAGE_ARRAY_MAX_PROPERTIES : messageMaker :=
  newMessageMaker ARRAY_MAX_PROPERTIES "must have at the most %d properties"
def ERROR_MESSAGE_HAS_DEPENDENCY_ON : messageMaker :=
  newMessageMaker HAS_DEPENDENCY_ON "has a dependency on %s"
def ERROR_MESSAGE_MULTIPLE_OF : messageMaker :=
  newMessageMaker MULTIPLE_OF "must be a multiple of %s"
def ERROR_MESSAGE_ARRAY_NO_ADDITIONAL_ITEM : messageMaker :=
  newMessageMaker ARRAY_NO_ADDITIONAL_ITEM "no additional item allowed on array"
def ERROR_MESSAGE_ADDITIONAL_PROPERTY_NOT_ALLOWED : messageMaker :=
  newMessageMaker ADDITIONAL_PROPERTY_NOT_ALLOWED "additional property \"%s\" is not allowed"
def ERROR_MESSAGE_INVALID_PATTERN_PROPERTY : messageMaker :=
  newMessageMaker INVALID_PATTERN_PROPERTY "property \"%s\" does not match pattern %s"
def ERROR_MESSAGE_INTERNAL : messageMaker :=
  newMessageMaker INTERNAL "internal error %s"
def ERROR_MESSAGE_GET_HTTP_BAD_STATUS : messageMaker :=
  newMessageMaker GET_HTTP_BAD_STATUS "Could not read schema from HTTP, response status is %d"
def ERROR_MESSAGE_NEW_SCHEMA_DOCUMENT_INVALID_ARGUMENT : messageMaker :=
  newMessageMaker NEW_SCHEMA_DOCUMENT_INVALID_ARGUMENT "Invalid argument, must be a JSON string, a JSON reference string or a map[string]interface\x7b\x7d"
def ERROR_MESSAGE_INVALID_REGEX_PATTERN : messageMaker :=
  newMessageMaker INVALID_REGEX_PATTERN "Invalid regex pattern '%s'"
def ERROR_MESSAGE_X_MUST_BE_VALID_REGEX : messageMaker :=
  newMessageMaker X_MUST_BE_VALID_REGEX "%s must be a valid regex"
def ERROR_MESSAGE_X_MUST_BE_GREATER_OR_TO_0 : messageMaker :=
  newMessageMaker X_MUST_BE_GREATER_OR_TO_0 "%s must be greater than or equal to 0"
def ERROR_MESSAGE_X_CANNOT_BE_GREATER_THAN_Y : messageMaker :=
  newMessageMaker X_CANNOT_BE_GREATER_THAN_Y "%s cannot be greater than %s"
def ERROR_MESSAGE_X_MUST_BE_STRICTLY_GREATER_THAN_0 : messageMaker :=
  newMessageMaker X_MUST_BE_STRICTLY_GREATER_THAN_0 "%s must be strictly greater than 0"
def ERROR_MESSAGE_X_CANNOT_BE_USED_WITHOUT_Y : messageMaker :=
  newMessageMaker X_CANNOT_BE_USED_WITHOUT_Y "%s cannot be used without %s"
def ERROR_MESSAGE_REFERENCE_X_MUST_BE_CANONICAL : messageMaker :=
  newMessageMaker REFERENCE_X_MUST_BE_CANONICAL "Reference %s must be canonical"

/-! ### Go `time.Parse` on the layouts used by the checkers

Translated from Go's `time/format.go` `parse` specialized to the layouts
`"2006-01-02"`, `"15:04:05"`, `"15:04:05Z07:00"` and RFC3339: fields are
read by `getnum` (one or two digits for the unpadded hour `15`, exactly
two digits for zero-padded fields), with in-loop range checks
(hour 0-23, minute 0-59, second 0-59, month 1-12), the implicit
fractional-second rule after a seconds field (a `.` or `,` followed by a
digit run is consumed even when the layout has no fractional field), the
`Z07:00` timezone chunk (`Z` or a `±hh:mm` offset), and the final
day-of-month validation against month length and leap years. -/

/-- Numeric value of a decimal digit character. -/
def dv (c : Char) : Nat := c.toNat - 48

/-- Go `time`'s `getnum`: one or two digits, exactly two when `fixed`
(a zero-padded layout field). -/
def getnum (fixed : Bool) : List Char → Option (Nat × List Char)
  | [] => none
  | c1 :: rest =>
    if !c1.isDigit then none
    else
      match rest with
      | c2 :: rest2 =>
        if c2.isDigit then some (10 * dv c1 + dv c2, rest2)
        else if fixed then none
        else some (dv c1, rest)
      | [] => if fixed then none else some (dv c1, [])

/-- The four-digit year field of layout `2006`: Go requires at least
four characters, all of them digits (`atoi` on the 4-byte slice). -/
def getYear4 : List Char → Option (Nat × List Char)
  | a :: b :: c :: d :: rest =>
    if a.isDigit && b.isDigit && c.isDigit && d.isDigit then
      some (1000 * dv a + 100 * dv b + 10 * dv c + dv d, rest)
    else none
  | _ => none

/-- Go `time.isLeap`: Gregorian leap-year rule. -/
def isLeap (year : Nat) : Bool :=
  year % 4 == 0 && (year % 100 != 0 || year % 400 == 0)

/-- Go `time`'s `daysIn`: the number of days of a month (month given
1-12), 29 for February of a leap year. -/
def daysIn (month year : Nat) : Nat :=
  match month with
  | 1 => 31
  | 2 => if isLeap year then 29 else 28
  | 3 => 31
  | 4 => 30
  | 5 => 31
  | 6 => 30
  | 7 => 31
  | 8 => 31
  | 9 => 30
  | 10 => 31
  | 11 => 30
  | 12 => 31
  | _ => 0

/-- The implicit fractional second after a seconds field: when the input
continues with `.` or `,` and a digit, the separator and the whole digit
run are consumed (current Go truncates overlong runs instead of
rejecting them, so acceptance never fails here). -/
def skipFrac : List Char → List Char
  | c0 :: c1 :: t =>
    if (c0 = '.' || c0 = ',') && c1.isDigit then (c1 :: t).dropWhile Char.isDigit
    else c0 :: c1 :: t
  | l => l

/-- The `15:04:05` portion of a layout: unpadded hour (range 0-23),
`:`, two-digit minute (0-59), `:`, two-digit second (0-59), then the
implicit fractional second.  Returns the unconsumed input. -/
def goTimeHMS (l : List Char) : Option (List Char) :=
  match getnum false l with
  | none => none
  | some (h, r1) =>
    if 24 ≤ h then none
    else
      match r1 with
      | ':' :: r2 =>
        match getnum true r2 with
        | none => none
        | some (mi, r3) =>
          if 60 ≤ mi then none
          else
            match r3 with
            | ':' :: r4 =>
              match getnum true r4 with
              | none => none
              | some (se, r5) => if 60 ≤ se then none else some (skipFrac r5)
            | _ => none
      | _ => none

/-- The `Z07:00` layout chunk: a literal `Z`, or a sign followed by
`hh:mm` (Go checks the digits but does not range-check the offset). -/
def goISO8601ColonTZ : List Char → Option (List Char)
  | 'Z' :: t => some t
  | s :: h1 :: h2 :: ':' :: m1 :: m2 :: t =>
    if (s = '+' || s = '-') && h1.isDigit && h2.isDigit && m1.isDigit && m2.isDigit then
      some t
    else none
  | _ => none

/-- The `2006-01-02` portion of a layout: four-digit year, `-`,
two-digit month (range-checked 1-12 in the parse loop), `-`, two-digit
day.  The day is validated against the month only after the whole input
is consumed, so it is returned here. -/
def goDateYMD (l : List Char) : Option (Nat × Nat × Nat × List Char) :=
  match getYear4 l with
  | none => none
  | some (y, r1) =>
    match r1 with
    | [] => none
    | e1 :: r2 =>
      if e1 = '-' then
        match getnum true r2 with
        | none => none
        | some (m, r3) =>
          if m = 0 || 12 < m then none
          else
            match r3 with
            | [] => none
            | e2 :: r4 =>
              if e2 = '-' then
                match getnum true r4 with
                | none => none
                | some (d, r5) => some (y, m, d, r5)
              else none
      else none

/-- Final day-of-month validation of Go `time.parse`. -/
def dayOk (y m d : Nat) : Bool := decide (1 ≤ d) && decide (d ≤ daysIn m y)

/-- Success of `time.Parse("2006-01-02", s)`. -/
def goParseDate (l : List Char) : Bool :=
  match goDateYMD l with
  | some (y, m, d, r) => r.isEmpty && dayOk y m d
  | none => false

/-- Success of `time.Parse("15:04:05", s)`. -/
def goParsePartialTime (l : List Char) : Bool :=
  match goTimeHMS l with
  | some r => r.isEmpty
  | none => false

/-- Success of `time.Parse("15:04:05Z07:00", s)`. -/
def goParseFullTime (l : List Char) : Bool :=
  match goTimeHMS l with
  | some r =>
    match goISO8601ColonTZ r with
    | some r2 => r2.isEmpty
    | none => false
  | none => false

/-- Success of `time.Parse(time.RFC3339, s)`; as the seconds field of
the layout is followed by a non-fractional chunk, an implicit fractional
second is accepted, so `time.RFC3339Nano` accepts exactly the same
strings and needs no separate model. -/
def goParseRFC3339 (l : List Char) : Bool :=
  match goDateYMD l with
  | some (y, m, d, r) =>
    (match r with
     | 'T' :: r1 =>
       (match goTimeHMS r1 with
        | some r2 =>
          (match goISO8601ColonTZ r2 with
           | some r3 => r3.isEmpty && dayOk y m d
           | none => false)
        | none => false)
     | _ => false)
  | none => false

/-! ### The precompiled regular expressions

The patterns of format_checkers.go (lines 136-145) are all anchored
(`^...$`), so `MatchString` is whole-string matching.  The regexp engine
is modelled by Brzozowski derivatives over a small regex syntax with
character ranges, sufficient for these patterns. -/

/-- Regular expressions: empty language, empty string, a character
class given by negation flag and ranges, concatenation, alternation,
and Kleene RE.star. -/
inductive RE where
  | emp : RE
  | eps : RE
  | cls (neg : Bool) (ranges : List (Char × Char)) : RE
  | cat (a b : RE) : RE
  | alt (a b : RE) : RE
  | star (a : RE) : RE
deriving DecidableEq

open RE

/-- Whether a character class matches a character. -/
def clsMatch (neg : Bool) (ranges : List (Char × Char)) (c : Char) : Bool :=
  let inR := ranges.any fun p => decide (p.1 ≤ c) && decide (c ≤ p.2)
  if neg then !inR else inR

/-- A single-character literal. -/
def REchr (c : Char) : RE := cls false [(c, c)]

/-- `n`-fold repetition, for counted quantifiers such as `[a-f0-9]{8}`. -/
def REpow (r : RE) : Nat → RE
  | 0 => eps
  | n + 1 => cat r (REpow r n)

/-- At most `n` repetitions, for quantifiers such as `{0,61}`. -/
def REupTo (r : RE) : Nat → RE
  | 0 => eps
  | n + 1 => alt eps (cat r (REupTo r n))

/-- Whether a regex accepts the empty string. -/
def nullable : RE → Bool
  | emp => false
  | eps => true
  | cls _ _ => false
  | cat a b => nullable a && nullable b
  | alt a b => nullable a || nullable b
  | RE.star _ => true

/-- Simplifying concatenation. -/
def mkCat (a b : RE) : RE :=
  if a = emp then emp
  else if b = emp then emp
  else if a = eps then b
  else if b = eps then a
  else cat a b

/-- Simplifying alternation. -/
def mkAlt (a b : RE) : RE :=
  if a = emp then b
  else if b = emp then a
  else if a = b then a
  else alt a b

/-- The Brzozowski derivative of a regex by a character. -/
def REderiv : RE → Char → RE
  | emp, _ => emp
  | eps, _ => emp
  | cls neg ranges, c => if clsMatch neg ranges c then eps else emp
  | cat a b, c =>
    if nullable a then mkAlt (mkCat (REderiv a c) b) (REderiv b c)
    else mkCat (REderiv a c) b
  | alt a b, c => mkAlt (REderiv a c) (REderiv b c)
  | RE.star a, c => mkCat (REderiv a c) (RE.star a)

/-- Whole-string matching by iterated derivatives. -/
def dmatch (r : RE) : List Char → Bool
  | [] => nullable r
  | c :: l => dmatch (REderiv r c) l

/-- The suffix of a template expression after its opening brace:
`[^\x7d]*` followed by the closing brace. -/
def uritExpr : RE := cat (RE.star (cls true [('}', '}')])) (REchr '}')

/-- One iteration group of `rxURITemplate`: `[^\x7b]*(\x7b[^\x7d]*\x7d)?`. -/
def uritBody : RE :=
  cat (RE.star (cls true [('{', '{')])) (alt (cat (REchr '{') uritExpr) eps)

/-- `rxURITemplate` (format_checkers.go line 139), the pattern
`([^\x7b]*(\x7b[^\x7d]*\x7d)?)*` anchored at both ends. -/
def rxURITemplate : RE := RE.star uritBody

/-- `rxUUID` (format_checkers.go line 141): the canonical lowercase
8-4-4-4-12 hexadecimal grouping. -/
def rxUUID : RE :=
  let hex := cls false [('a', 'f'), ('0', '9')]
  cat (REpow hex 8) (cat (REchr '-')
    (cat (REpow hex 4) (cat (REchr '-')
      (cat (REpow hex 4) (cat (REchr '-')
        (cat (REpow hex 4) (cat (REchr '-') (REpow hex 12))))))))

/-- One hostname label of `rxHostname` (format_checkers.go line 136):
a single alphanumeric, or an alphanumeric, up to 61 alphanumeric/hyphen
characters, and a final alphanumeric. -/
def rxHostnameLabel : RE :=
  let alnum := cls false [('a', 'z'), ('A', 'Z'), ('0', '9')]
  let alnumDash := cls false [('a', 'z'), ('A', 'Z'), ('0', '9'), ('-', '-')]
  alt alnum (cat alnum (cat (REupTo alnumDash 61) alnum))

/-- `rxHostname`: dot-separated labels. -/
def rxHostname : RE :=
  cat rxHostnameLabel (RE.star (cat (REchr '.') rxHostnameLabel))

/-- The body of a JSON-Pointer segment: any character other than `~`
and `/`, or the escapes `~0` and `~1`. -/
def rxJSONPointerSeg : RE :=
  RE.star (alt (cls true [('~', '~'), ('/', '/')])
    (alt (cat (REchr '~') (REchr '0')) (cat (REchr '~') (REchr '1'))))

/-- `rxJSONPointer` (format_checkers.go line 143). -/
def rxJSONPointer : RE :=
  RE.star (cat (REchr '/') rxJSONPointerSeg)

/-- `rxRelJSONPointer` (format_checkers.go line 145): a non-negative
integer without leading zeros, then `#` or a JSON Pointer. -/
def rxRelJSONPointer : RE :=
  cat (alt (REchr '0') (cat (cls false [('1', '9')]) (RE.star (cls false [('0', '9')]))))
    (alt (REchr '#') rxJSONPointer)

/-! ### Go `net.ParseIP`

Translated from the Go standard library: `dtoi`/`xtoi` numeric readers,
`parseIPv4` (with the rejection of leading zeros and of octets above
255), `parseIPv6` (16 bytes in two-byte hexadecimal groups, a single
`::` ellipsis, an optional embedded dotted IPv4 tail), and `ParseIP`
itself, which dispatches on the first `.` or `:` of the input.  Only
parse success is modelled (the checkers use the result solely through
its nil-check); IPv6 zone suffixes are rejected, as in current Go's
`ParseIP`. -/

/-- Go `net`'s `dtoi`: reads a decimal prefix, giving value, number of
characters consumed, remaining input, and success; saturates at
`0xFFFFFF` with failure. -/
def dtoiAux : List Char → Nat → Nat → Nat × Nat × List Char × Bool
  | [], n, i => if i = 0 then (0, 0, [], false) else (n, i, [], true)
  | c :: t, n, i =>
    if c.isDigit then
      let n2 := n * 10 + dv c
      if 0xFFFFFF ≤ n2 then (0xFFFFFF, i, c :: t, false)
      else dtoiAux t n2 (i + 1)
    else if i = 0 then (0, 0, c :: t, false)
    else (n, i, c :: t, true)

/-- Entry point of `dtoi`. -/
def dtoi (l : List Char) : Nat × Nat × List Char × Bool := dtoiAux l 0 0

/-- Hexadecimal digit value, if any. -/
def hexVal (c : Char) : Option Nat :=
  if c.isDigit then some (dv c)
  else if 'a' ≤ c && c ≤ 'f' then some (c.toNat - 87)
  else if 'A' ≤ c && c ≤ 'F' then some (c.toNat - 55)
  else none

/-- Go `net`'s `xtoi`: reads a hexadecimal prefix. -/
def xtoiAux : List Char → Nat → Nat → Nat × Nat × List Char × Bool
  | [], n, i => if i = 0 then (0, 0, [], false) else (n, i, [], true)
  | c :: t, n, i =>
    match hexVal c with
    | some v =>
      let n2 := 16 * n + v
      if 0xFFFFFF ≤ n2 then (0, i, c :: t, false)
      else xtoiAux t n2 (i + 1)
    | none => if i = 0 then (0, 0, c :: t, false) else (n, i, c :: t, true)

/-- Entry point of `xtoi`. -/
def xtoi (l : List Char) : Nat × Nat × List Char × Bool := xtoiAux l 0 0

/-- The four-octet loop of Go's `parseIPv4`: each octet is decimal,
at most 255, without leading zeros; octets are separated by `.` and the
input must end with the last octet. -/
def parseIPv4Loop : Nat → Bool → List Char → Bool
  | 0, _, s => s.isEmpty
  | k + 1, first, s =>
    match s with
    | [] => false
    | _ :: _ =>
      let s2opt : Option (List Char) :=
        if first then some s
        else
          match s with
          | '.' :: t => some t
          | _ => none
      match s2opt with
      | none => false
      | some s2 =>
        match dtoi s2 with
        | (n, c, rest, ok) =>
          if !ok || 255 < n then false
          else if 1 < c && s2.head? == some '0' then false
          else parseIPv4Loop k false rest

/-- Success of Go's `parseIPv4`. -/
def parseIPv4Go (s : List Char) : Bool := parseIPv4Loop 4 true s

/-- Post-loop validation of `parseIPv6`: all input consumed, and the
`::` ellipsis present exactly when fewer than 16 bytes were filled. -/
def parseIPv6Finish (i : Nat) (ell : Option Nat) (s : List Char) : Bool :=
  s.isEmpty && (if i < 16 then ell.isSome else ell.isNone)

/-- The grouping loop of Go's `parseIPv6`: `fuel` bounds the iteration
count (the loop fills two bytes per round), `i` is the number of bytes
filled exactly, `ell` the position of the `::` ellipsis if seen.  A
group followed by `.` switches to the embedded IPv4 form. -/
def parseIPv6Loop : Nat → Nat → Option Nat → List Char → Bool
  | 0, i, ell, s => parseIPv6Finish i ell s
  | f + 1, i, ell, s =>
    if 16 ≤ i then parseIPv6Finish i ell s
    else
      match xtoi s with
      | (n, _, rest, ok) =>
        if !ok || 0xFFFF < n then false
        else if rest.head? == some '.' then
          if ell.isNone && i ≠ 12 then false
          else if 16 < i + 4 then false
          else if !parseIPv4Go s then false
          else parseIPv6Finish (i + 4) ell []
        else
          match rest with
          | [] => parseIPv6Finish (i + 2) ell []
          | ':' :: [] => false
          | ':' :: c2 :: t2 =>
            if c2 = ':' then
              if ell.isSome then false
              else
                match t2 with
                | [] => parseIPv6Finish (i + 2) (some (i + 2)) []
                | _ => parseIPv6Loop f (i + 2) (some (i + 2)) t2
            else parseIPv6Loop f (i + 2) ell (c2 :: t2)
          | _ => false

/-- Success of Go's `parseIPv6`, including the leading `::` case. -/
def parseIPv6Go (s : List Char) : Bool :=
  match s with
  | ':' :: ':' :: t => if t.isEmpty then true else parseIPv6Loop 8 0 (some 0) t
  | _ => parseIPv6Loop 8 0 none s

/-- The dispatch scan of `net.ParseIP`: the first `.` selects the IPv4
form, the first `:` the IPv6 form; `orig` is the whole input. -/
def goParseIPScan (orig : List Char) : List Char → Bool
  | [] => false
  | c :: t =>
    if c = '.' then parseIPv4Go orig
    else if c = ':' then parseIPv6Go orig
    else goParseIPScan orig t

/-- Success of `net.ParseIP(s)` (`ip != nil`). -/
def goParseIP (s : List Char) : Bool := goParseIPScan s s

/-! ### Go `net/url.Parse`

Translated from the Go standard library `net/url`: control-byte
rejection, fragment and query cutting, `getScheme`, the opaque
(rootless) form, the `//authority` form with userinfo and host
validation, and percent-decoding of path, fragment and host via
`unescape`.  The RFC 6874 `%25` zone special case of bracketed hosts is
not modelled (no claim concerns IPv6 zoned hosts); every other error
path of `parse` is.  Strings are handled as their character lists. -/

/-- `strings.Cut` at the first occurrence of `c`: before, after, found. -/
def cutFirst : List Char → Char → List Char × List Char × Bool
  | [], _ => ([], [], false)
  | a :: t, c =>
    if a = c then ([], t, true)
    else
      match cutFirst t c with
      | (b, rest, f) => (a :: b, rest, f)

/-- The index of the last occurrence of `c`, as in `strings.LastIndex`. -/
def lastIndexOfAux : List Char → Char → Nat → Option Nat → Option Nat
  | [], _, _, acc => acc
  | a :: t, c, i, acc => lastIndexOfAux t c (i + 1) (if a = c then some i else acc)

/-- Entry point for the last-occurrence index. -/
def lastIndexOf (l : List Char) (c : Char) : Option Nat := lastIndexOfAux l c 0 none

/-- `stringContainsCTLByte`: an ASCII control character (below space,
or DEL). -/
def isCtlChar (c : Char) : Bool := c.toNat < 0x20 || c.toNat == 0x7f

/-- ASCII letter. -/
def isAlphaChar (c : Char) : Bool := ('a' ≤ c && c ≤ 'z') || ('A' ≤ c && c ≤ 'Z')

/-- ASCII letter or digit. -/
def isAlnumChar (c : Char) : Bool := isAlphaChar c || c.isDigit

/-- Hexadecimal digit test, as in `url.ishex`. -/
def ishex (c : Char) : Bool := (hexVal c).isSome

/-- Hexadecimal digit value, as in `url.unhex`. -/
def unhex (c : Char) : Nat := (hexVal c).getD 0

/-- The percent-decoding modes of `net/url.unescape` that the parser
uses. -/
inductive EncMode where
  | encPath : EncMode
  | encHost : EncMode
  | encUserPassword : EncMode
  | encFragment : EncMode
deriving DecidableEq

open EncMode

/-- `shouldEscape(c, encodeHost)`: which characters may appear raw in a
host.  Sub-delimiters and the extra characters Go tolerates are allowed;
everything else makes `unescape` fail with an invalid-host error. -/
def hostAllowedChar (c : Char) : Bool :=
  isAlnumChar c ||
  c = '-' || c = '_' || c = '.' || c = '~' ||
  c = '!' || c = '$' || c = '&' || c = Char.ofNat 39 ||
  c = '(' || c = ')' || c = '*' || c = '+' || c = ',' ||
  c = ';' || c = '=' || c = ':' || c = '[' || c = ']' ||
  c = '<' || c = '>' || c = '"'

/-- `net/url.unescape`: validates and decodes `%XX` escapes; in host
mode it also rejects raw characters that must be escaped and
percent-escapes of ASCII bytes other than `%25`. -/
def unescapeGo (mode : EncMode) : List Char → Option (List Char)
  | [] => some []
  | '%' :: rest =>
    match rest with
    | h1 :: h2 :: t =>
      if ishex h1 && ishex h2 then
        if mode = encHost && unhex h1 < 8 && !(h1 = '2' && h2 = '5') then none
        else
          match unescapeGo mode t with
          | none => none
          | some d => some (Char.ofNat (16 * unhex h1 + unhex h2) :: d)
      else none
    | _ => none
  | c :: t =>
    if mode = encHost && !hostAllowedChar c then none
    else
      match unescapeGo mode t with
      | none => none
      | some d => some (c :: d)

/-- `url.validOptionalPort`: empty, or `:` followed by decimal digits. -/
def validOptionalPort : List Char → Bool
  | [] => true
  | ':' :: t => t.all Char.isDigit
  | _ => false

/-- `url.validUserinfo`: the characters RFC 3986 allows in userinfo. -/
def validUserinfo (l : List Char) : Bool :=
  l.all fun c =>
    isAlnumChar c ||
    c = '-' || c = '.' || c = '_' || c = ':' || c = '~' ||
    c = '!' || c = '$' || c = '&' || c = Char.ofNat 39 ||
    c = '(' || c = ')' || c = '*' || c = '+' || c = ',' ||
    c = ';' || c = '=' || c = '%' || c = '@'

/-- `url.parseHost`: bracketed hosts need a closing bracket and a valid
optional port after it; unbracketed hosts need a valid optional port
after the last colon, if any; then the whole host is percent-decoded in
host mode. -/
def parseHost (host : List Char) : Option (List Char) :=
  match host with
  | '[' :: _ =>
    match lastIndexOf host ']' with
    | none => none
    | some i =>
      if validOptionalPort (host.drop (i + 1)) then unescapeGo encHost host
      else none
  | _ =>
    match lastIndexOf host ':' with
    | none => unescapeGo encHost host
    | some i =>
      if validOptionalPort (host.drop i) then unescapeGo encHost host
      else none

/-- `url.parseAuthority`: an optional userinfo before the last `@`
(validated and percent-checked), then the host. -/
def parseAuthority (auth : List Char) : Option (List Char) :=
  match lastIndexOf auth '@' with
  | none => parseHost auth
  | some i =>
    match parseHost (auth.drop (i + 1)) with
    | none => none
    | some h =>
      let userinfo := auth.take i
      if !validUserinfo userinfo then none
      else
        match unescapeGo encUserPassword userinfo with
        | none => none
        | some _ => some h

/-- `url.getScheme`: scans for `scheme:`; a leading non-letter, or any
character outside the scheme alphabet before the colon, means the input
has no scheme; a colon at position zero is an error. -/
def getSchemeAux (orig : List Char) (i : Nat) : List Char → Option (List Char × List Char)
  | [] => some ([], orig)
  | c :: t =>
    if isAlphaChar c then getSchemeAux orig (i + 1) t
    else if c.isDigit || c = '+' || c = '-' || c = '.' then
      if i = 0 then some ([], orig) else getSchemeAux orig (i + 1) t
    else if c = ':' then
      if i = 0 then none else some (orig.take i, t)
    else some ([], orig)

/-- Entry point of `getScheme`: the scheme (possibly empty) and the
remainder. -/
def getScheme (l : List Char) : Option (List Char × List Char) :=
  getSchemeAux l 0 l

/-- The components of a parsed Go `url.URL` that this model tracks. -/
structure GoURL where
  scheme : List Char := []
  opaq : List Char := []
  host : List Char := []
  path : List Char := []
  rawQuery : List Char := []
  fragment : List Char := []
  forceQuery : Bool := false
deriving DecidableEq

/-- `url.parse(rest, viaRequest=false)` on the input with the fragment
already cut off. -/
def parseNoFrag (l : List Char) : Option GoURL :=
  if l.any isCtlChar then none
  else if l = ['*'] then some { path := ['*'] }
  else
    match getScheme l with
    | none => none
    | some (schemeRaw, afterScheme) =>
      let scheme := schemeRaw.map Char.toLower
      let hasForceQuery :=
        afterScheme.getLast? == some '?' && afterScheme.dropLast.all (· ≠ '?')
      let rest := if hasForceQuery then afterScheme.dropLast else (cutFirst afterScheme '?').1
      let rawQuery := if hasForceQuery then [] else (cutFirst afterScheme '?').2.1
      if rest.head? != some '/' then
        if scheme ≠ [] then
          some { scheme := scheme, opaq := rest, rawQuery := rawQuery,
                 forceQuery := hasForceQuery }
        else if ((cutFirst rest '/').1).contains ':' then none
        else
          match unescapeGo encPath rest with
          | none => none
          | some p =>
            some { path := p, rawQuery := rawQuery, forceQuery := hasForceQuery }
      else
        if (scheme ≠ [] || rest.take 3 ≠ ['/', '/', '/']) && rest.take 2 = ['/', '/'] then
          let afterSlashes := rest.drop 2
          let auth := afterSlashes.takeWhile (· ≠ '/')
          let rest2 := afterSlashes.dropWhile (· ≠ '/')
          match parseAuthority auth with
          | none => none
          | some h =>
            match unescapeGo encPath rest2 with
            | none => none
            | some p =>
              some { scheme := scheme, host := h, path := p, rawQuery := rawQuery,
                     forceQuery := hasForceQuery }
        else
          match unescapeGo encPath rest with
          | none => none
          | some p =>
            some { scheme := scheme, path := p, rawQuery := rawQuery,
                   forceQuery := hasForceQuery }

/-- `url.Parse`: cuts the fragment at the first `#`, parses the rest,
then decodes a non-empty fragment. -/
def urlParseGo (s : String) : Option GoURL :=
  match cutFirst s.data '#' with
  | (before, frag, _) =>
    match parseNoFrag before with
    | none => none
    | some u =>
      if frag = [] then some u
      else
        match unescapeGo encFragment frag with
        | none => none
        | some f => some { u with fragment := f }

/-! ### The built-in format checkers (format_checkers.go lines 195-378)

Each checker first applies the `input.(string)` type assertion and
returns false on failure; the string branch is the translated grammar
check.  `mail.ParseAddress` and `regexp.Compile` are trusted external
parsing primitives with no bearing on any claim's string branch; the
checkers that use them are parameterized by the primitive's acceptance
predicate. -/

/-- `EmailFormatChecker.IsFormat` (lines 195-203): a non-string is
rejected; a string is accepted iff the trusted RFC 5322 address parser
`mail.ParseAddress` accepts it. -/
def EmailFormatChecker_IsFormat (mailParseAddressOk : String → Bool)
    (input : Value) : Bool :=
  match asString input with
  | none => false
  | some s => mailParseAddressOk s

/-- `IPV4FormatChecker.IsFormat` (lines 206-215): `net.ParseIP`
succeeds and the string contains a dot. -/
def IPV4FormatChecker_IsFormat (input : Value) : Bool :=
  match asString input with
  | none => false
  | some s => goParseIP s.data && s.data.contains '.'

/-- `IPV6FormatChecker.IsFormat` (lines 218-227): `net.ParseIP`
succeeds and the string contains a colon. -/
def IPV6FormatChecker_IsFormat (input : Value) : Bool :=
  match asString input with
  | none => false
  | some s => goParseIP s.data && s.data.contains ':'

/-- `DateTimeFormatChecker.IsFormat` (lines 230-251): the string parses
under one of the layouts `15:04:05`, `15:04:05Z07:00`, `2006-01-02`,
RFC3339 or RFC3339Nano (the last accepts exactly the same strings as
RFC3339, see `goParseRFC3339`). -/
def DateTimeFormatChecker_IsFormat (input : Value) : Bool :=
  match asString input with
  | none => false
  | some s =>
    goParsePartialTime s.data || goParseFullTime s.data ||
      goParseDate s.data || goParseRFC3339 s.data

/-- `DateFormatChecker.IsFormat` (lines 254-261): layout `2006-01-02`. -/
def DateFormatChecker_IsFormat (input : Value) : Bool :=
  match asString input with
  | none => false
  | some s => goParseDate s.data

/-- `TimeFormatChecker.IsFormat` (lines 264-276): layout
`15:04:05Z07:00`, then layout `15:04:05`. -/
def TimeFormatChecker_IsFormat (input : Value) : Bool :=
  match asString input with
  | none => false
  | some s => goParseFullTime s.data || goParsePartialTime s.data

/-- `URIFormatChecker.IsFormat` (lines 279-292): `url.Parse` succeeds,
the scheme is non-empty, and the string has no backslash. -/
def URIFormatChecker_IsFormat (input : Value) : Bool :=
  match asString input with
  | none => false
  | some s =>
    match urlParseGo s with
    | none => false
    | some u => if u.scheme = [] then false else !(s.data.contains '\\')

/-- `URIReferenceFormatChecker.IsFormat` (lines 295-303): `url.Parse`
succeeds and the string has no backslash. -/
def URIReferenceFormatChecker_IsFormat (input : Value) : Bool :=
  match asString input with
  | none => false
  | some s => (urlParseGo s).isSome && !(s.data.contains '\\')

/-- `URITemplateFormatChecker.IsFormat` (lines 306-318): `url.Parse`
succeeds, the string has no backslash, and `rxURITemplate` matches the
parsed (percent-decoded) path. -/
def URITemplateFormatChecker_IsFormat (input : Value) : Bool :=
  match asString input with
  | none => false
  | some s =>
    match urlParseGo s with
    | none => false
    | some u =>
      if s.data.contains '\\' then false
      else dmatch rxURITemplate u.path

/-- `HostnameFormatChecker.IsFormat` (lines 321-328): `rxHostname`
matches and the byte length is below 256. -/
def HostnameFormatChecker_IsFormat (input : Value) : Bool :=
  match asString input with
  | none => false
  | some s => dmatch rxHostname s.data && decide (s.utf8ByteSize < 256)

/-- `UUIDFormatChecker.IsFormat` (lines 331-344): a non-string builds a
description on a discarded error value and returns false; a string is
matched against `rxUUID`. -/
def UUIDFormatChecker_IsFormat (input : Value) : Bool :=
  match asString input with
  | none => false
  | some s =>
    let m := dmatch rxUUID s.data
    if !m then false else true

/-- `RegexFormatChecker.IsFormat` (lines 347-358): the empty string is
valid; otherwise the trusted `regexp.Compile` must succeed. -/
def RegexFormatChecker_IsFormat (regexpCompileOk : String → Bool)
    (input : Value) : Bool :=
  match asString input with
  | none => false
  | some s => if s = "" then true else regexpCompileOk s

/-- `JSONPointerFormatChecker.IsFormat` (lines 361-368). -/
def JSONPointerFormatChecker_IsFormat (input : Value) : Bool :=
  match asString input with
  | none => false
  | some s => dmatch rxJSONPointer s.data

/-- `RelativeJSONPointerFormatChecker.IsFormat` (lines 371-378). -/
def RelativeJSONPointerFormatChecker_IsFormat (input : Value) : Bool :=
  match asString input with
  | none => false
  | some s => dmatch rxRelJSONPointer s.data

/-- The bindings of the process-wide default registry (format_checkers.go
lines 113-133): the seventeen built-in entries of the `formatters` map
literal, including the aliases `idn-email`, `iri` and `iri-reference`;
parameterized by the two trusted external predicates.  The Go map is
modelled as an association list with pairwise distinct keys, looked up
by name. -/
def defaultFormatterList (mailOk regexOk : String → Bool) : List (String × Checker) :=
  [("date", convertToNewChecker DateFormatChecker_IsFormat),
   ("time", convertToNewChecker TimeFormatChecker_IsFormat),
   ("date-time", convertToNewChecker DateTimeFormatChecker_IsFormat),
   ("hostname", convertToNewChecker HostnameFormatChecker_IsFormat),
   ("email", convertToNewChecker (EmailFormatChecker_IsFormat mailOk)),
   ("idn-email", convertToNewChecker (EmailFormatChecker_IsFormat mailOk)),
   ("ipv4", convertToNewChecker IPV4FormatChecker_IsFormat),
   ("ipv6", convertToNewChecker IPV6FormatChecker_IsFormat),
   ("uri", convertToNewChecker URIFormatChecker_IsFormat),
   ("uri-reference", convertToNewChecker URIReferenceFormatChecker_IsFormat),
   ("iri", convertToNewChecker URIFormatChecker_IsFormat),
   ("iri-reference", convertToNewChecker URIReferenceFormatChecker_IsFormat),
   ("uri-template", convertToNewChecker URITemplateFormatChecker_IsFormat),
   ("uuid", convertToNewChecker UUIDFormatChecker_IsFormat),
   ("regex", convertToNewChecker (RegexFormatChecker_IsFormat regexOk)),
   ("json-pointer", convertToNewChecker JSONPointerFormatChecker_IsFormat),
   ("relative-json-pointer", convertToNewChecker RelativeJSONPointerFormatChecker_IsFormat)]

/-- The process-wide default registry `FormatCheckers` as a `Chain`. -/
def FormatCheckers (mailOk regexOk : String → Bool) : Chain := fun name =>
  (defaultFormatterList mailOk regexOk).lookup name

/-! ### Specification-side predicates

These render the spec's wording, to be compared with the translated
code. -/

/-- The spec's reading of the URI-template brace discipline: the path is
scanned left to right with a single inside/outside state (expressions do
not nest), every opening brace must be closed, and the scan must end
outside an expression. -/
def braceScan (inside : Bool) : List Char → Bool
  | [] => !inside
  | c :: t =>
    if inside then braceScan (decide (c ≠ '}')) t
    else braceScan (decide (c = '{')) t

/-- The spec's reading of the date grammar: exactly `YYYY-MM-DD` with a
month between 01 and 12 and a day valid for that month and year under
leap-year rules. -/
def isDateForm : List Char → Bool
  | [y1, y2, y3, y4, s1, m1, m2, s2, d1, d2] =>
    (y1.isDigit && y2.isDigit && y3.isDigit && y4.isDigit) &&
    decide (s1 = '-') &&
    (m1.isDigit && m2.isDigit) &&
    decide (s2 = '-') &&
    (d1.isDigit && d2.isDigit) &&
    decide (1 ≤ 10 * dv m1 + dv m2) && decide (10 * dv m1 + dv m2 ≤ 12) &&
    decide (1 ≤ 10 * dv d1 + dv d2) &&
    decide (10 * dv d1 + dv d2 ≤
      daysIn (10 * dv m1 + dv m2) (1000 * dv y1 + 100 * dv y2 + 10 * dv y3 + dv y4))
  | _ => false

/-- An always-empty registry, used to instantiate theorems about
arbitrary registry states. -/
def emptyChain : Chain := fun _ => none

/-- A checker accepting everything, used to instantiate theorems about
arbitrary checkers. -/
def constTrueChecker : Checker := fun _ => true

/-! ### Helper lemmas -/

/-- A successful association-list lookup returns one of the stored
values. -/
theorem lookup_some_mem {α β : Type} [BEq α] (a : α) (b : β) (l : List (α × β))
    (h : l.lookup a = some b) : b ∈ l.map Prod.snd := by
  induction l with
  | nil => simp [List.lookup] at h
  | cons p t ih =>
    obtain ⟨k, c⟩ := p
    rw [List.lookup] at h
    cases hb : (a == k) with
    | true =>
      rw [hb] at h
      simp only [Option.some.injEq] at h
      subst h
      simp
    | false =>
      rw [hb] at h
      exact List.mem_cons_of_mem _ (ih h)

/-- A value that is not string-typed fails the string type assertion. -/
theorem asString_eq_none (v : Value) (hv : isStringValue v = false) : asString v = none := by
  unfold isStringValue at hv
  cases h : asString v
  · rfl
  · rw [h] at hv
    simp at hv

/-- The simplifying alternation is idempotent. -/
theorem mkAlt_self (x : RE) : mkAlt x x = x := by
  unfold mkAlt
  split_ifs <;> simp_all

/-- A single-character range matches exactly that character. -/
theorem char_le_le_iff (a c : Char) : (decide (a ≤ c) && decide (c ≤ a)) = decide (c = a) := by
  by_cases h : c = a
  · subst h; simp
  · simp [h]
    exact fun h1 => lt_of_le_of_ne h1 fun he => h he.symm

/-- Derivative of the URI-template pattern by an opening brace: the
matcher enters a template expression. -/
theorem REderiv_out_open : REderiv rxURITemplate '{' = cat uritExpr rxURITemplate := by
  decide

/-- Derivative of the inside-an-expression state by a closing brace:
the matcher returns to the outside state. -/
theorem REderiv_in_close : REderiv (cat uritExpr rxURITemplate) '}' = rxURITemplate := by
  decide

/-- Derivative of the URI-template pattern by any character other than
an opening brace. -/
theorem REderiv_out (c : Char) (hc : ¬(c = '{')) :
    REderiv rxURITemplate c = cat uritBody rxURITemplate := by
  have h1 : clsMatch true [('{', '{')] c = true := by
    simp [clsMatch, List.any, char_le_le_iff, hc]
  have h2 : clsMatch false [('{', '{')] c = false := by
    simp [clsMatch, List.any, char_le_le_iff, hc]
  simp only [rxURITemplate, uritBody, uritExpr, REchr, REderiv, nullable, h1, h2]
  simp
  all_goals decide

/-- Derivative of the inside-an-expression state by any character other
than a closing brace: the matcher stays inside. -/
theorem REderiv_in (c : Char) (hc : ¬(c = '}')) :
    REderiv (cat uritExpr rxURITemplate) c = cat uritExpr rxURITemplate := by
  have h1 : clsMatch true [('}', '}')] c = true := by
    simp [clsMatch, List.any, char_le_le_iff, hc]
  have h2 : clsMatch false [('}', '}')] c = false := by
    simp [clsMatch, List.any, char_le_le_iff, hc]
  simp only [rxURITemplate, uritBody, uritExpr, REchr, REderiv, nullable, h1, h2]
  simp
  all_goals decide

/-- The state reached after a non-brace character behaves like the
initial state. -/
theorem REderiv_T (c : Char) :
    REderiv (cat uritBody rxURITemplate) c = REderiv rxURITemplate c := by
  have hn : nullable uritBody = true := by decide
  simp only [rxURITemplate, REderiv, hn, if_true, ite_true]
  exact mkAlt_self _

/-- Matching from the after-non-brace state agrees with matching from
the initial state. -/
theorem dmatch_T (l : List Char) :
    dmatch (cat uritBody rxURITemplate) l = dmatch rxURITemplate l := by
  cases l with
  | nil => decide
  | cons c t =>
    simp only [dmatch]
    rw [REderiv_T]

/-- The regex `rxURITemplate` accepts exactly the strings accepted by
the two-state left-to-right brace scan: outside state from the pattern
itself, inside state from the expression suffix. -/
theorem dmatch_braceScan (l : List Char) :
    dmatch rxURITemplate l = braceScan false l ∧
    dmatch (cat uritExpr rxURITemplate) l = braceScan true l := by
  induction l with
  | nil => constructor <;> decide
  | cons c t ih =>
    constructor
    · simp only [dmatch, braceScan]
      by_cases hc : c = '{'
      · subst hc
        rw [REderiv_out_open]
        simpa using ih.2
      · rw [REderiv_out c hc, dmatch_T]
        have hd : decide (c = '{') = false := by simp [hc]
        rw [hd]
        simpa using ih.1
    · simp only [dmatch, braceScan]
      by_cases hc : c = '}'
      · subst hc
        rw [REderiv_in_close]
        simpa using ih.1
      · rw [REderiv_in c hc]
        have hd : decide (¬c = '}') = true := by simp [hc]
        simp only [ne_eq, hd, if_true, ite_true]
        simpa using ih.2

/-- A zero-padded two-digit field reads exactly two digits. -/
theorem getnum2_cons (a b : Char) (r : List Char) :
    getnum true (a :: b :: r) =
      if a.isDigit && b.isDigit then some (10 * dv a + dv b, r) else none := by
  by_cases hA : a.isDigit <;> by_cases hB : b.isDigit <;> simp [getnum, hA, hB]

set_option maxHeartbeats 2000000 in
/-- The date parser of layout `2006-01-02` accepts exactly the strings
of the declarative date form. -/
theorem goParseDate_eq_isDateForm (l : List Char) : goParseDate l = isDateForm l := by
  rcases l with _ | ⟨a, _ | ⟨b, _ | ⟨c, _ | ⟨d, _ | ⟨e, _ | ⟨f, _ | ⟨g, _ | ⟨h, _ | ⟨i, _ | ⟨j, rest⟩⟩⟩⟩⟩⟩⟩⟩⟩⟩
  · rfl
  · rfl
  · rfl
  · rfl
  · simp only [goParseDate, goDateYMD, getYear4, getnum, getnum2_cons, dayOk, isDateForm]
    repeat' split_ifs <;> simp_all
  · simp only [goParseDate, goDateYMD, getYear4, getnum, getnum2_cons, dayOk, isDateForm]
    repeat' split_ifs <;> simp_all
  · simp only [goParseDate, goDateYMD, getYear4, getnum, getnum2_cons, dayOk, isDateForm]
    repeat' split_ifs <;> simp_all
  · simp only [goParseDate, goDateYMD, getYear4, getnum, getnum2_cons, dayOk, isDateForm]
    repeat' split_ifs <;> simp_all
  · simp only [goParseDate, goDateYMD, getYear4, getnum, getnum2_cons, dayOk, isDateForm]
    repeat' split_ifs <;> simp_all
  · simp only [goParseDate, goDateYMD, getYear4, getnum, getnum2_cons, dayOk, isDateForm]
    repeat' split_ifs <;> simp_all
  · cases rest with
    | nil =>
      simp only [goParseDate, goDateYMD, getYear4, getnum, getnum2_cons, dayOk, isDateForm]
      repeat' split_ifs <;> simp_all
      all_goals try (intros; omega)
      all_goals
        (have h9 : (1 : Nat) ≤ 10 * dv f + dv g := by omega
         simp [h9])
    | cons k rest2 =>
      simp only [goParseDate, goDateYMD, getYear4, getnum, getnum2_cons, dayOk, isDateForm]
      repeat' split_ifs <;> simp_all

/-! ### The claims -/

/-- C1: For every registry state, format name and value, if no checker
is registered under the name then `FormatCheckerChain.IsFormat` returns
true, and if a checker is registered then `IsFormat` returns that
checker's verdict on the value unmodified. -/
theorem FormatCheckerChain_IsFormat_lookup (c : Chain) (name : String) (v : Value) :
    (c name = none → FormatCheckerChain_IsFormat c name v = true) ∧
    (∀ f, c name = some f → FormatCheckerChain_IsFormat c name v = f v) := by
  constructor
  · intro h
    simp [FormatCheckerChain_IsFormat, h]
  · intro f h
    simp [FormatCheckerChain_IsFormat, h]

/-- Witness for C1: the empty registry passes an unknown format on a
null value, and a registry holding an accept-all checker under a name
returns that checker's verdict there. -/
theorem FormatCheckerChain_IsFormat_lookup_witness :
    (emptyChain "no-such-format" = none ∧
      FormatCheckerChain_IsFormat emptyChain "no-such-format" Value.vNull = true) ∧
    ((FormatCheckerChain_Add emptyChain "all" constTrueChecker) "all" = some constTrueChecker ∧
      FormatCheckerChain_IsFormat (FormatCheckerChain_Add emptyChain "all" constTrueChecker)
        "all" Value.vNull = constTrueChecker Value.vNull) :=
  ⟨⟨rfl, (FormatCheckerChain_IsFormat_lookup emptyChain "no-such-format" Value.vNull).1 rfl⟩,
   ⟨rfl, (FormatCheckerChain_IsFormat_lookup _ "all" Value.vNull).2 constTrueChecker rfl⟩⟩

/-- C2: Every built-in format checker rejects every non-string value
(null, boolean, number, sequence or mapping) with false, without any
failure path; consequently, for every name registered in the default
registry and every non-string value, `IsFormat` returns false. -/
theorem builtin_checkers_nonstring (mailOk regexOk : String → Bool) (name : String)
    (v : Value) (hv : isStringValue v = false) :
    (EmailFormatChecker_IsFormat mailOk v = false ∧
     IPV4FormatChecker_IsFormat v = false ∧
     IPV6FormatChecker_IsFormat v = false ∧
     DateTimeFormatChecker_IsFormat v = false ∧
     DateFormatChecker_IsFormat v = false ∧
     TimeFormatChecker_IsFormat v = false ∧
     URIFormatChecker_IsFormat v = false ∧
     URIReferenceFormatChecker_IsFormat v = false ∧
     URITemplateFormatChecker_IsFormat v = false ∧
     HostnameFormatChecker_IsFormat v = false ∧
     UUIDFormatChecker_IsFormat v = false ∧
     RegexFormatChecker_IsFormat regexOk v = false ∧
     JSONPointerFormatChecker_IsFormat v = false ∧
     RelativeJSONPointerFormatChecker_IsFormat v = false) ∧
    (FormatCheckerChain_Has (FormatCheckers mailOk regexOk) name = true →
      FormatCheckerChain_IsFormat (FormatCheckers mailOk regexOk) name v = false) := by
  have hn : asString v = none := asString_eq_none v hv
  have h1 : EmailFormatChecker_IsFormat mailOk v = false := by
    simp [EmailFormatChecker_IsFormat, hn]
  have h2 : IPV4FormatChecker_IsFormat v = false := by
    simp [IPV4FormatChecker_IsFormat, hn]
  have h3 : IPV6FormatChecker_IsFormat v = false := by
    simp [IPV6FormatChecker_IsFormat, hn]
  have h4 : DateTimeFormatChecker_IsFormat v = false := by
    simp [DateTimeFormatChecker_IsFormat, hn]
  have h5 : DateFormatChecker_IsFormat v = false := by
    simp [DateFormatChecker_IsFormat, hn]
  have h6 : TimeFormatChecker_IsFormat v = false := by
    simp [TimeFormatChecker_IsFormat, hn]
  have h7 : URIFormatChecker_IsFormat v = false := by
    simp [URIFormatChecker_IsFormat, hn]
  have h8 : URIReferenceFormatChecker_IsFormat v = false := by
    simp [URIReferenceFormatChecker_IsFormat, hn]
  have h9 : URITemplateFormatChecker_IsFormat v = false := by
    simp [URITemplateFormatChecker_IsFormat, hn]
  have h10 : HostnameFormatChecker_IsFormat v = false := by
    simp [HostnameFormatChecker_IsFormat, hn]
  have h11 : UUIDFormatChecker_IsFormat v = false := by
    simp [UUIDFormatChecker_IsFormat, hn]
  have h12 : RegexFormatChecker_IsFormat regexOk v = false := by
    simp [RegexFormatChecker_IsFormat, hn]
  have h13 : JSONPointerFormatChecker_IsFormat v = false := by
    simp [JSONPointerFormatChecker_IsFormat, hn]
  have h14 : RelativeJSONPointerFormatChecker_IsFormat v = false := by
    simp [RelativeJSONPointerFormatChecker_IsFormat, hn]
  refine ⟨⟨h1, h2, h3, h4, h5, h6, h7, h8, h9, h10, h11, h12, h13, h14⟩, ?_⟩
  intro hHas
  unfold FormatCheckerChain_IsFormat
  cases hf : FormatCheckers mailOk regexOk name with
  | none => exact absurd hHas (by simp [FormatCheckerChain_Has, hf])
  | some f =>
    show f v = false
    unfold FormatCheckers at hf
    have hmem := lookup_some_mem name f (defaultFormatterList mailOk regexOk) hf
    simp only [defaultFormatterList, convertToNewChecker, List.map_cons, List.map_nil,
      List.mem_cons, List.not_mem_nil, or_false] at hmem
    rcases hmem with rfl | rfl | rfl | rfl | rfl | rfl | rfl | rfl | rfl | rfl | rfl |
      rfl | rfl | rfl | rfl | rfl | rfl
    · exact h5
    · exact h6
    · exact h4
    · exact h10
    · exact h1
    · exact h1
    · exact h2
    · exact h3
    · exact h7
    · exact h8
    · exact h7
    · exact h8
    · exact h9
    · exact h11
    · exact h12
    · exact h13
    · exact h14

/-- Witness for C2: null is not string-typed, `uuid` is registered in
the default registry, and `IsFormat("uuid", null)` is false. -/
theorem builtin_checkers_nonstring_witness :
    isStringValue Value.vNull = false ∧
    FormatCheckerChain_Has (FormatCheckers (fun _ => true) (fun _ => true)) "uuid" = true ∧
    FormatCheckerChain_IsFormat (FormatCheckers (fun _ => true) (fun _ => true)) "uuid"
      Value.vNull = false :=
  ⟨by decide, by decide,
   (builtin_checkers_nonstring (fun _ => true) (fun _ => true) "uuid" Value.vNull
      (by decide)).2 (by decide)⟩

/-- C3 (code bug): the time checker rejects the leap second "23:59:60",
although both the claim and the checker's own documentation (seconds
00-60 based on leap second rules, two-digit hour) promise otherwise; it
accepts the well-formed "23:59:59", and it also accepts the one-digit
hour "3:04:05", which the documented `HH:MM:SS` grammar excludes.  This
follows Go `time.Parse`, which range-checks seconds to 00-59 and reads
an unpadded hour for layout `15`. -/
theorem TimeFormatChecker_leap_second :
    TimeFormatChecker_IsFormat (Value.vStr "23:59:60") = false ∧
    TimeFormatChecker_IsFormat (Value.vStr "23:59:59") = true ∧
    TimeFormatChecker_IsFormat (Value.vStr "3:04:05") = true := by
  refine ⟨?_, ?_, ?_⟩ <;> decide

/-- C4: The date checker accepts exactly the strings of the form
`YYYY-MM-DD` whose month lies in 01-12 and whose day is valid for the
given month and year under leap-year rules; in particular "2023-02-29"
is rejected and "2024-02-29" accepted. -/
theorem DateFormatChecker_characterization :
    (∀ s : String, DateFormatChecker_IsFormat (Value.vStr s) = true ↔
      isDateForm s.data = true) ∧
    DateFormatChecker_IsFormat (Value.vStr "2023-02-29") = false ∧
    DateFormatChecker_IsFormat (Value.vStr "2024-02-29") = true := by
  refine ⟨fun s => ?_, by decide, by decide⟩
  simp only [DateFormatChecker_IsFormat, asString, goParseDate_eq_isDateForm]

/-- C5: The uri checker accepts a string exactly when `url.Parse`
succeeds on it with a non-empty scheme and it contains no backslash;
"http://example.com" is accepted, while "example.com" (no scheme) and
a URI with a backslash are rejected. -/
theorem URIFormatChecker_characterization :
    (∀ s : String, URIFormatChecker_IsFormat (Value.vStr s) = true ↔
      (∃ u, urlParseGo s = some u ∧ u.scheme ≠ [] ∧ s.data.contains '\\' = false)) ∧
    URIFormatChecker_IsFormat (Value.vStr "http://example.com") = true ∧
    URIFormatChecker_IsFormat (Value.vStr "example.com") = false ∧
    URIFormatChecker_IsFormat (Value.vStr "http:\\evil") = false := by
  refine ⟨fun s => ?_, by decide, by decide, by decide⟩
  simp only [URIFormatChecker_IsFormat, asString]
  cases h : urlParseGo s with
  | none => simp [h]
  | some u =>
    simp only [h, Option.some.injEq]
    by_cases hs : u.scheme = [] <;> by_cases hb : s.data.contains '\\' <;>
      simp [hs, hb]

/-- C6: The uri-template checker accepts a string exactly when it
parses as a uri-reference (no backslash, `url.Parse` succeeds) and the
parsed path, scanned left to right, consists of balanced non-nested
brace expressions; braces in components other than the path are not
checked, as the accepted example with an unbalanced brace in the query
shows. -/
theorem URITemplateFormatChecker_characterization :
    (∀ s : String, URITemplateFormatChecker_IsFormat (Value.vStr s) = true ↔
      (∃ u, urlParseGo s = some u ∧ s.data.contains '\\' = false ∧
        braceScan false u.path = true)) ∧
    URITemplateFormatChecker_IsFormat (Value.vStr "http://example.com/x?\x7b") = true := by
  refine ⟨fun s => ?_, by decide⟩
  simp only [URITemplateFormatChecker_IsFormat, asString]
  cases h : urlParseGo s with
  | none => simp [h]
  | some u =>
    simp only [h, Option.some.injEq, exists_eq_left']
    rw [← (dmatch_braceScan u.path).1]
    by_cases hb : s.data.contains '\\' <;> simp [hb]

/-- C7: For every registry state, adding a checker under a name and
then removing that name always leaves the name unbound (any prior
binding is not restored), so `Has` returns to its pre-Add value exactly
when no binding existed before the Add. -/
theorem FormatCheckerChain_add_remove (c : Chain) (n : String) (f : Checker) :
    FormatCheckerChain_Has (FormatCheckerChain_Remove (FormatCheckerChain_Add c n f) n) n
      = false ∧
    (FormatCheckerChain_Remove (FormatCheckerChain_Add c n f) n) n = none ∧
    (FormatCheckerChain_Has (FormatCheckerChain_Remove (FormatCheckerChain_Add c n f) n) n
        = FormatCheckerChain_Has c n ↔ FormatCheckerChain_Has c n = false) := by
  have h0 : FormatCheckerChain_Has
      (FormatCheckerChain_Remove (FormatCheckerChain_Add c n f) n) n = false := by
    simp [FormatCheckerChain_Has, FormatCheckerChain_Remove]
  have h1 : (FormatCheckerChain_Remove (FormatCheckerChain_Add c n f) n) n = none := by
    simp [FormatCheckerChain_Remove]
  refine ⟨h0, h1, ?_⟩
  rw [h0, eq_comm]

/-- C8: Every message maker bound by `newMessageMaker` is total, and
the produced `Message` always carries the bound code, whatever the
positional arguments; a mismatched argument count yields a garbled
description, as the zero-argument invocation of the multiple-of
template shows, rather than a failure. -/
theorem newMessageMaker_total_code :
    (∀ (code format : String) (args : List FmtArg),
      (newMessageMaker code format args).Code = code) ∧
    ERROR_MESSAGE_MULTIPLE_OF [] =
      ⟨MULTIPLE_OF, "must be a multiple of %!s(MISSING)"⟩ := by
  constructor
  · intro code format args
    rfl
  · rfl

/-- C9: The query operations `Has` and `IsFormat` leave the registry's
name-to-checker mapping unchanged: after either call, every name is
bound exactly as before. -/
theorem FormatCheckerChain_queries_frame (c : Chain) (n : String) (v : Value) (m : String) :
    ((FormatCheckerChain_HasOp c n).2) m = c m ∧
    ((FormatCheckerChain_IsFormatOp c n v).2) m = c m :=
  ⟨rfl, rfl⟩

/-- C10: The ipv4 and ipv6 checkers are not mutually exclusive: the
IPv4-mapped IPv6 literal "::ffff:192.168.0.1" contains both a dot and a
colon, parses as an IP literal, and is accepted by both checkers. -/
theorem ipv4_ipv6_not_exclusive :
    goParseIP "::ffff:192.168.0.1".data = true ∧
    "::ffff:192.168.0.1".data.contains '.' = true ∧
    "::ffff:192.168.0.1".data.contains ':' = true ∧
    IPV4FormatChecker_IsFormat (Value.vStr "::ffff:192.168.0.1") = true ∧
    IPV6FormatChecker_IsFormat (Value.vStr "::ffff:192.168.0.1") = true := by
  refine ⟨?_, ?_, ?_, ?_, ?_⟩ <;> decide
